import Mathlib

/-!
# LangConnect-Client: verification of the Collection/Document/Chunk store spec

The repository ships the presentation layer (translation tables, navigation
chrome) and documentation; the backend core (Store, Ingestion Pipeline, Hybrid
Search Engine, Bulk Lifecycle Manager) is described by the specification but its
code is not among the given files.  Definitions for that core are therefore
modelled from the spec (each such definition says so in its doc comment);
definitions for the UI pieces (breadcrumb generation, translation tables) are
translated from the given source files.

Conventions: text is modelled as `List Char`, scores as `ℚ` (exact rationals in
place of floating point), identifiers as `Nat`, metadata as association lists
`List (String × String)`.
-/

namespace LangConnect

/-- Modelled from the spec (§3): a Collection row — opaque id, owner identity,
human-chosen name. -/
structure CollectionRow where
  id : Nat
  owner : Nat
  name : String
  deriving DecidableEq, Repr

/-- Modelled from the spec (§3): a Document row — id and owning Collection
reference. -/
structure DocumentRow where
  id : Nat
  collectionId : Nat
  deriving DecidableEq, Repr

/-- Modelled from the spec (§3): a Chunk row — owning Document reference,
0-based ordinal, textual content, embedding vector, and the denormalized
metadata mapping inherited from its Document. -/
structure ChunkRow where
  documentId : Nat
  ordinal : Nat
  content : List Char
  embedding : List ℚ
  metadata : List (String × String)
  deriving DecidableEq, Repr

/-- Modelled from the spec (§4.1): the durable Store holding the three entity
tables. -/
structure Store where
  collections : List CollectionRow
  documents : List DocumentRow
  chunks : List ChunkRow
  deriving DecidableEq, Repr

/-- Modelled from the spec (§3): a Chunk's ownership chain roots at collection
`cid` when its owning Document (looked up in the store) belongs to `cid`. -/
def rootsAt (s : Store) (cid : Nat) (ch : ChunkRow) : Bool :=
  s.documents.any (fun d => d.id == ch.documentId && d.collectionId == cid)

/-- Modelled from the spec (§3, §4.4): deleting a Collection cascades: it
removes the collection row, every Document owned by it, and every Chunk whose
ownership chain (Chunk → Document → Collection) roots at it. -/
def deleteCollectionCascade (cid : Nat) (s : Store) : Store :=
  { collections := s.collections.filter (fun c => !(c.id == cid))
    documents := s.documents.filter (fun d => !(d.collectionId == cid))
    chunks := s.chunks.filter (fun ch => !(rootsAt s cid ch)) }

/-- Insertion step for `sortLe`: place `a` before the first element `b` of the
(already sorted) list with `le a b`. -/
def insertLe (le : α → α → Bool) (a : α) : List α → List α
  | [] => [a]
  | b :: bs => if le a b then a :: b :: bs else b :: insertLe le a bs

/-- Deterministic insertion sort by a boolean "ranks at least as well as"
relation; used to model the best-first ordering of search results. -/
def sortLe (le : α → α → Bool) : List α → List α
  | [] => []
  | a :: as => insertLe le a (sortLe le as)

/-- Modelled from the spec (§4.3): ties are broken by `(documentId, ordinal)`
ascending for determinism. -/
def keyLe (a b : ChunkRow) : Bool :=
  a.documentId < b.documentId || (a.documentId == b.documentId && a.ordinal ≤ b.ordinal)

/-- Modelled from the spec (§4.3): "sort descending by score; ties broken by
`(documentId, ordinal)` ascending": `a` ranks at least as well as `b`. -/
def rankLe (s : ChunkRow → ℚ) (a b : ChunkRow) : Bool :=
  decide (s b < s a) || (decide (s a = s b) && keyLe a b)

/-- Modelled from the spec (§4.1): the metadata filter is a mapping-equality
predicate over the Chunk's inherited metadata — all filter keys must be present
with exactly the filter's value; a key absent on the Chunk is a non-match. -/
def matchesFilter (filter : List (String × String)) (ch : ChunkRow) : Bool :=
  filter.all (fun kv => ch.metadata.lookup kv.1 == some kv.2)

/-- Modelled from the spec (§4.1): `fetchChunksForSearch` — the eligible
candidate pool of a search is the chunks passing the metadata filter. -/
def fetchChunksForSearch (pool : List ChunkRow) (filter : List (String × String)) :
    List ChunkRow :=
  pool.filter (matchesFilter filter)

/-- Maximum raw score of a modality over a candidate pool. -/
def maxScore (s : ChunkRow → ℚ) : List ChunkRow → ℚ
  | [] => 0
  | [c] => s c
  | c :: c' :: cs => max (s c) (maxScore s (c' :: cs))

/-- Minimum raw score of a modality over a candidate pool. -/
def minScore (s : ChunkRow → ℚ) : List ChunkRow → ℚ
  | [] => 0
  | [c] => s c
  | c :: c' :: cs => min (s c) (minScore s (c' :: cs))

/-- Modelled from the spec (§4.3): min-max normalization of one modality's raw
scores to `[0,1]` across the candidate pool; if all raw scores are equal every
normalized score is `1`. -/
def normalize (s : ChunkRow → ℚ) (cands : List ChunkRow) (c : ChunkRow) : ℚ :=
  let mx := maxScore s cands
  let mn := minScore s cands
  if mx = mn then 1 else (s c - mn) / (mx - mn)

/-- Modelled from the spec (§4.3): fused score
`alpha * normalizedSemantic + (1 - alpha) * normalizedKeyword`, both modalities
normalized over the same candidate pool. -/
def fusedScore (alpha : ℚ) (sem kw : ChunkRow → ℚ) (cands : List ChunkRow)
    (c : ChunkRow) : ℚ :=
  alpha * normalize sem cands c + (1 - alpha) * normalize kw cands c

/-- Modelled from the spec (§4.3), semantic mode: rank the filtered candidates
by raw semantic score, descending, ties by `(documentId, ordinal)`. -/
def semanticSearch (pool : List ChunkRow) (sem : ChunkRow → ℚ)
    (filter : List (String × String)) (limit : Nat) : List ChunkRow :=
  (sortLe (rankLe sem) (fetchChunksForSearch pool filter)).take limit

/-- Modelled from the spec (§4.3), keyword mode: rank the filtered candidates
by raw lexical score, descending, same tie-break. -/
def keywordSearch (pool : List ChunkRow) (kw : ChunkRow → ℚ)
    (filter : List (String × String)) (limit : Nat) : List ChunkRow :=
  (sortLe (rankLe kw) (fetchChunksForSearch pool filter)).take limit

/-- Modelled from the spec (§4.3), hybrid mode: both score sets are computed
over the same filtered candidate pool, independently min-max normalized, fused
with weight `alpha`, then ranked descending with the same tie-break. -/
def hybridSearch (pool : List ChunkRow) (sem kw : ChunkRow → ℚ)
    (filter : List (String × String)) (limit : Nat) (alpha : ℚ) : List ChunkRow :=
  let cands := fetchChunksForSearch pool filter
  (sortLe (rankLe (fusedScore alpha sem kw cands)) cands).take limit

/-- Modelled from the spec (§4.2, step 2): the deterministic windowing policy —
fixed target size in characters with a configurable overlap.  The preferential
paragraph/sentence-boundary break is left open by the spec (§9 notes the source
project does not pin it down); the modelled policy is the documented fallback:
a hard cut at the target size, stepping forward by `size - overlap`. -/
def windowChunks (size overlap : Nat) (t : List Char) : List (List Char) :=
  if t.length ≤ size ∨ size ≤ overlap then [t]
  else t.take size :: windowChunks size overlap (t.drop (size - overlap))
termination_by t.length
decreasing_by simp only [List.length_drop]; omega

/-- Removing each chunk's `overlap`-character overlap with its predecessor and
concatenating: the first chunk is kept whole, every later chunk drops its first
`overlap` characters. -/
def deOverlap (overlap : Nat) : List (List Char) → List Char
  | [] => []
  | c :: cs => c ++ (cs.map (List.drop overlap)).flatten

/-- Modelled from the spec (§4.2): chunk rows for one document, ordinals
assigned 0-based and contiguous in window order, each row carrying its
embedding and the document's effective metadata. -/
def mkChunkRows (docId : Nat) (meta : List (String × String)) (ord : Nat) :
    List (List Char × List ℚ) → List ChunkRow
  | [] => []
  | (c, e) :: rest => ⟨docId, ord, c, e, meta⟩ :: mkChunkRows docId meta (ord + 1) rest

/-- Modelled from the spec (§4.2, step 3): call the Embedding Gateway for each
chunk; a failure on any chunk fails the whole batch. -/
def embedAll (embed : List Char → Except Unit (List ℚ)) :
    List (List Char) → Except Unit (List (List ℚ))
  | [] => .ok []
  | c :: cs =>
    match embed c, embedAll embed cs with
    | .ok e, .ok es => .ok (e :: es)
    | .error _, _ => .error ()
    | _, .error _ => .error ()

/-- Modelled from the spec (§4.1): `insertDocumentWithChunks` — one atomic
write making the document row and all its chunk rows visible together. -/
def insertDocumentWithChunks (doc : DocumentRow) (chunkRows : List ChunkRow)
    (s : Store) : Store :=
  { s with documents := doc :: s.documents, chunks := chunkRows ++ s.chunks }

/-- Modelled from the spec (§7): collaborator failures surfaced by the
Ingestion Pipeline. -/
inductive IngestError where
  | extractionError
  | embeddingError
  deriving DecidableEq, Repr

/-- Modelled from the spec (§4.2): the Ingestion Pipeline for one file —
extract text (on failure signal `ExtractionError` and persist nothing), window
it into chunks, embed every chunk (on any failure abort the whole document and
signal `EmbeddingError`), then `insertDocumentWithChunks`.  Returns the store
after the operation together with the signalled error, if any. -/
def ingestDocument (extract : Except Unit (List Char))
    (embed : List Char → Except Unit (List ℚ)) (size overlap : Nat)
    (docId cid : Nat) (meta : List (String × String)) (s : Store) :
    Store × Option IngestError :=
  match extract with
  | .error _ => (s, some .extractionError)
  | .ok text =>
    let pieces := windowChunks size overlap text
    match embedAll embed pieces with
    | .error _ => (s, some .embeddingError)
    | .ok embs =>
      (insertDocumentWithChunks ⟨docId, cid⟩
        (mkChunkRows docId meta 0 (pieces.zip embs)) s, none)

/-- Modelled from the spec (§4.1): an id is deletable by `owner` when a
collection with that id exists in the store and belongs to `owner`. -/
def ownedPresent (s : Store) (owner : Nat) (i : Nat) : Bool :=
  s.collections.any (fun c => c.id == i && c.owner == owner)

/-- Modelled from the spec (§4.1, §4.4): `deleteCollections` — each owned id is
cascade-deleted; ids not owned or not found are reported in `notFoundIds`
rather than failing the batch.  Returns (store after, deletedIds, notFoundIds). -/
def deleteCollections (ids : List Nat) (owner : Nat) (s : Store) :
    Store × List Nat × List Nat :=
  let deleted := ids.filter (ownedPresent s owner)
  let notFound := ids.filter (fun i => !(ownedPresent s owner i))
  (deleted.foldl (fun acc i => deleteCollectionCascade i acc) s, deleted, notFound)

/-- Number of documents owned by collection `cid`. -/
def docCount (s : Store) (cid : Nat) : Nat :=
  (s.documents.filter (fun d => d.collectionId == cid)).length

/-- Number of chunks whose ownership chain roots at collection `cid`. -/
def chunkCount (s : Store) (cid : Nat) : Nat :=
  (s.chunks.filter (rootsAt s cid)).length

/-- Modelled from the spec (§4.1, §4.4): the queries a caller can send to the
store, each constructor being one round trip.  `aggregatedStats` is the single
aggregated statistics query the contract requires; the other three are the
primitive reads the defective N+1 pattern issues. -/
inductive StoreQuery where
  | aggregatedStats (owner : Nat)
  | collectionsOf (owner : Nat)
  | documentsOf (cid : Nat)
  | chunksRootedAt (cid : Nat)
  deriving DecidableEq, Repr

/-- Rows coming back from one store query. -/
inductive QueryResult where
  | stats (rows : List (CollectionRow × Nat × Nat))
  | collections (rows : List CollectionRow)
  | count (n : Nat)
  deriving DecidableEq, Repr

/-- Store-side evaluation of one query.  The aggregated statistics query joins
the three tables and counts per collection inside the store, within this one
round trip. -/
def evalQuery (s : Store) : StoreQuery → QueryResult
  | .aggregatedStats owner =>
    .stats ((s.collections.filter (fun c => c.owner == owner)).map
      (fun c => (c, docCount s c.id, chunkCount s c.id)))
  | .collectionsOf owner =>
    .collections (s.collections.filter (fun c => c.owner == owner))
  | .documentsOf cid => .count (docCount s cid)
  | .chunksRootedAt cid => .count (chunkCount s cid)

/-- An instrumented connection to the store: `queriesIssued` counts the round
trips sent over it. -/
structure Session where
  store : Store
  queriesIssued : Nat
  deriving DecidableEq, Repr

/-- Issue one query over an instrumented session: every round trip increments
the instrumentation counter by one. -/
def runQuery (q : StoreQuery) (sess : Session) : QueryResult × Session :=
  (evalQuery sess.store q,
    { sess with queriesIssued := sess.queriesIssued + 1 })

/-- The scalar carried by a `count` result. -/
def QueryResult.asCount : QueryResult → Nat
  | .count n => n
  | _ => 0

/-- Modelled from the spec (§4.1): `listCollectionsWithStats` issues the one
aggregated query over a fresh instrumented session and returns the statistics
rows together with the number of round trips the session saw. -/
def listCollectionsWithStats (s : Store) (owner : Nat) :
    List (CollectionRow × Nat × Nat) × Nat :=
  let qr := runQuery (.aggregatedStats owner) ⟨s, 0⟩
  (match qr.1 with
   | .stats rows => rows
   | _ => [], qr.2.queriesIssued)

/-- One iteration of the defective N+1 pattern: for one collection, issue a
documents query and then a chunks query over the instrumented session. -/
def n1Step (acc : List (CollectionRow × Nat × Nat) × Session)
    (c : CollectionRow) : List (CollectionRow × Nat × Nat) × Session :=
  let r1 := runQuery (.documentsOf c.id) acc.2
  let r2 := runQuery (.chunksRootedAt c.id) r1.2
  (acc.1 ++ [(c, r1.1.asCount, r2.1.asCount)], r2.2)

/-- The defective N+1 pattern from the project's issue tracker, written over
the same instrumented session: one query for the collection list, then one
documents query and one chunks query per collection. -/
def listCollectionsWithStatsN1 (s : Store) (owner : Nat) :
    List (CollectionRow × Nat × Nat) × Nat :=
  let qr := runQuery (.collectionsOf owner) ⟨s, 0⟩
  let cols := match qr.1 with
    | .collections rows => rows
    | _ => []
  let out := cols.foldl n1Step ([], qr.2)
  (out.1, out.2.queriesIssued)

/-- A navigation entry of `AppHeader` (`NavigationItem` in the source);
`isHome` is absent on most items in the source and modelled as `false` there.
Paths are modelled as `List Char`. -/
structure NavItem where
  name : String
  href : List Char
  isHome : Bool
  deriving DecidableEq, Repr

/-- `navigationData.main` from `AppHeader`. -/
def navigationMain : List NavItem :=
  [⟨"메인", "/".toList, true⟩,
   ⟨"컬렉션", "/collections".toList, false⟩,
   ⟨"문서", "/documents".toList, false⟩,
   ⟨"검색", "/search".toList, false⟩,
   ⟨"API 테스터", "/api-tester".toList, false⟩]

/-- `generateBreadcrumb` from `AppHeader`: the root path yields the single home
item named "Main"; otherwise the first navigation item whose href equals the
pathname, or is a prefix of it followed by "/", is the only breadcrumb item —
or none when nothing matches. -/
def generateBreadcrumb (pathname : List Char) : List NavItem :=
  if pathname = "/".toList then [⟨"Main", "/".toList, true⟩]
  else
    match navigationMain.find?
        (fun item => pathname == item.href ||
          (item.href ++ "/".toList).isPrefixOf pathname) with
    | some item => [item]
    | none => []

/-- The `en` translation table, flattened: each nested leaf string of the
source object appears as its full key path paired with its value.  Literal
braces of interpolation placeholders are written with hex escapes. -/
def enTable : List (List String × String) :=
  [(["common", "loading"], "Loading..."),
   (["common", "error"], "Error"),
   (["common", "success"], "Success"),
   (["common", "cancel"], "Cancel"),
   (["common", "save"], "Save"),
   (["common", "delete"], "Delete"),
   (["common", "edit"], "Edit"),
   (["common", "create"], "Create"),
   (["common", "search"], "Search"),
   (["common", "refresh"], "Refresh"),
   (["common", "logout"], "Log out"),
   (["common", "none"], "None"),
   (["common", "selectAll"], "Select all"),
   (["common", "selected"], "\x7b\x7bcount\x7d\x7d selected"),
   (["common", "total"], "Total \x7b\x7bcount\x7d\x7d"),
   (["sidebar", "main"], "Main"),
   (["sidebar", "collections"], "Collections"),
   (["sidebar", "documents"], "Documents"),
   (["sidebar", "search"], "Search"),
   (["sidebar", "apiTester"], "API Tester"),
   (["sidebar", "mainTitle"], "Main"),
   (["collections", "title"], "Collection Management"),
   (["collections", "description"], "Create and manage document collections"),
   (["collections", "newCollection"], "New Collection"),
   (["collections", "collectionList"], "Collection List"),
   (["collections", "noCollections"], "No collections"),
   (["collections", "noCollectionsDescription"],
     "Create your first collection to organize documents systematically."),
   (["collections", "createFirstCollection"], "Create First Collection"),
   (["collections", "stats", "collections"], "Collections"),
   (["collections", "stats", "documents"], "Documents"),
   (["collections", "stats", "chunks"], "Chunks"),
   (["collections", "stats", "documentsCount"], "\x7b\x7bcount\x7d\x7d documents"),
   (["collections", "stats", "chunksCount"], "\x7b\x7bcount\x7d\x7d chunks"),
   (["collections", "table", "collection"], "Collection"),
   (["collections", "table", "stats"], "Statistics"),
   (["collections", "table", "uuid"], "UUID"),
   (["collections", "table", "metadata"], "Metadata"),
   (["collections", "deleteConfirm", "title"], "Delete Confirmation"),
   (["collections", "deleteConfirm", "description"],
     "Are you sure you want to delete the selected collections? This action cannot be undone."),
   (["collections", "deleteConfirm", "collectionsToDelete"],
     "Collections to delete (\x7b\x7bcount\x7d\x7d):"),
   (["collections", "deleteConfirm", "warningMessage"],
     "All documents in the deleted collections will also be deleted."),
   (["collections", "deleteConfirm", "deleteButton"], "Delete"),
   (["collections", "deleteConfirm", "deleting"], "Deleting..."),
   (["collections", "deleteConfirm", "deleteSelected"], "Delete Selected"),
   (["collections", "popover", "basicInfo"], "Basic Information"),
   (["collections", "popover", "statistics"], "Statistics"),
   (["collections", "messages", "fetchError"], "Failed to fetch collections"),
   (["collections", "messages", "deleteSuccess"],
     "\x7b\x7bcount\x7d\x7d collections successfully deleted."),
   (["collections", "messages", "deleteFailed"],
     "\x7b\x7bcount\x7d\x7d collections failed to delete."),
   (["collections", "modal", "createTitle"], "Create New Collection"),
   (["collections", "modal", "nameLabel"], "Collection Name"),
   (["collections", "modal", "namePlaceholder"], "Enter collection name"),
   (["collections", "modal", "descriptionLabel"], "Description"),
   (["collections", "modal", "descriptionPlaceholder"],
     "Enter collection description (optional)"),
   (["collections", "modal", "creating"], "Creating..."),
   (["collections", "modal", "createSuccess"], "Collection created successfully"),
   (["collections", "modal", "createError"], "Failed to create collection"),
   (["documents", "title"], "Document Management"),
   (["documents", "description"], "Upload and manage documents in collections"),
   (["documents", "selectCollection"], "Please select a collection first"),
   (["documents", "uploadDocument"], "Upload Document"),
   (["documents", "noDocuments"], "No documents"),
   (["documents", "noDocumentsDescription"],
     "Upload your first document to this collection."),
   (["documents", "uploadFirstDocument"], "Upload First Document"),
   (["documents", "table", "fileName"], "File Name"),
   (["documents", "table", "uploadDate"], "Upload Date"),
   (["documents", "table", "chunks"], "Chunks"),
   (["documents", "table", "actions"], "Actions"),
   (["documents", "deleteConfirm", "title"], "Delete Document"),
   (["documents", "deleteConfirm", "description"],
     "Are you sure you want to delete \"\x7b\x7bfileName\x7d\x7d\"? This action cannot be undone."),
   (["documents", "deleteConfirm", "warningMessage"],
     "All chunks associated with this document will also be deleted."),
   (["documents", "messages", "uploadSuccess"], "Document uploaded successfully"),
   (["documents", "messages", "uploadError"], "Failed to upload document"),
   (["documents", "messages", "deleteSuccess"], "Document deleted successfully"),
   (["documents", "messages", "deleteError"], "Failed to delete document"),
   (["documents", "messages", "fetchError"], "Failed to fetch documents"),
   (["documents", "modal", "uploadTitle"], "Upload Document"),
   (["documents", "modal", "selectFile"], "Select File"),
   (["documents", "modal", "supportedFormats"],
     "Supported formats: PDF, TXT, MD, DOCX, HTML"),
   (["documents", "modal", "uploading"], "Uploading..."),
   (["documents", "modal", "processing"], "Processing document..."),
   (["search", "title"], "Document Search"),
   (["search", "description"], "Search documents using semantic or keyword search"),
   (["search", "selectCollection"], "Select Collection"),
   (["search", "searchPlaceholder"], "Enter search query..."),
   (["search", "searchButton"], "Search"),
   (["search", "searching"], "Searching..."),
   (["search", "searchType"], "Search Type"),
   (["search", "semanticSearch"], "Semantic Search"),
   (["search", "keywordSearch"], "Keyword Search"),
   (["search", "hybridSearch"], "Hybrid Search"),
   (["search", "alphaValue"], "Alpha value (0-1)"),
   (["search", "noResults"], "No results found"),
   (["search", "results"], "Search Results"),
   (["search", "relevanceScore"], "Relevance: \x7b\x7bscore\x7d\x7d"),
   (["apiTester", "title"], "API Tester"),
   (["apiTester", "description"], "Test API endpoints with authentication"),
   (["apiTester", "endpoint"], "Endpoint"),
   (["apiTester", "method"], "Method"),
   (["apiTester", "headers"], "Headers"),
   (["apiTester", "body"], "Body"),
   (["apiTester", "sendRequest"], "Send Request"),
   (["apiTester", "response"], "Response"),
   (["apiTester", "responseTime"], "Response time: \x7b\x7btime\x7d\x7dms"),
   (["apiTester", "status"], "Status"),
   (["auth", "signIn"], "Sign In"),
   (["auth", "signUp"], "Sign Up"),
   (["auth", "email"], "Email"),
   (["auth", "password"], "Password"),
   (["auth", "confirmPassword"], "Confirm Password"),
   (["auth", "forgotPassword"], "Forgot Password?"),
   (["auth", "alreadyHaveAccount"], "Already have an account?"),
   (["auth", "dontHaveAccount"], "Don\x27t have an account?"),
   (["auth", "signInError"], "Failed to sign in"),
   (["auth", "signUpError"], "Failed to sign up"),
   (["auth", "logoutSuccess"], "Logged out successfully"),
   (["theme", "light"], "Light"),
   (["theme", "dark"], "Dark"),
   (["theme", "system"], "System"),
   (["language", "english"], "English"),
   (["language", "korean"], "한국어")]

/-- The `ko` translation table from `src/next-connect-ui/src/translations/ko.ts`,
flattened the same way as `enTable`. -/
def koTable : List (List String × String) :=
  [(["common", "loading"], "로딩 중..."),
   (["common", "error"], "오류"),
   (["common", "success"], "성공"),
   (["common", "cancel"], "취소"),
   (["common", "save"], "저장"),
   (["common", "delete"], "삭제"),
   (["common", "edit"], "편집"),
   (["common", "create"], "만들기"),
   (["common", "search"], "검색"),
   (["common", "refresh"], "새로고침"),
   (["common", "logout"], "로그아웃"),
   (["common", "none"], "없음"),
   (["common", "selectAll"], "전체 선택"),
   (["common", "selected"], "\x7b\x7bcount\x7d\x7d개 선택됨"),
   (["common", "total"], "총 \x7b\x7bcount\x7d\x7d개"),
   (["sidebar", "main"], "메인"),
   (["sidebar", "collections"], "컬렉션"),
   (["sidebar", "documents"], "문서"),
   (["sidebar", "search"], "검색"),
   (["sidebar", "apiTester"], "API 테스터"),
   (["sidebar", "mainTitle"], "메인"),
   (["collections", "title"], "컬렉션 관리"),
   (["collections", "description"], "문서 컬렉션을 생성하고 관리하세요"),
   (["collections", "newCollection"], "새 컬렉션"),
   (["collections", "collectionList"], "컬렉션 목록"),
   (["collections", "noCollections"], "컬렉션이 없습니다"),
   (["collections", "noCollectionsDescription"],
     "첫 번째 컬렉션을 생성하여 문서들을 체계적으로 관리해보세요."),
   (["collections", "createFirstCollection"], "첫 컬렉션 만들기"),
   (["collections", "stats", "collections"], "컬렉션"),
   (["collections", "stats", "documents"], "문서"),
   (["collections", "stats", "chunks"], "청크"),
   (["collections", "stats", "documentsCount"], "\x7b\x7bcount\x7d\x7d 문서"),
   (["collections", "stats", "chunksCount"], "\x7b\x7bcount\x7d\x7d 청크"),
   (["collections", "table", "collection"], "컬렉션"),
   (["collections", "table", "stats"], "통계"),
   (["collections", "table", "uuid"], "UUID"),
   (["collections", "table", "metadata"], "메타데이터"),
   (["collections", "deleteConfirm", "title"], "삭제 확인"),
   (["collections", "deleteConfirm", "description"],
     "정말로 선택한 컬렉션을 삭제하시겠습니까? 이 작업은 복구할 수 없습니다."),
   (["collections", "deleteConfirm", "collectionsToDelete"],
     "삭제할 컬렉션 (\x7b\x7bcount\x7d\x7d개):"),
   (["collections", "deleteConfirm", "warningMessage"],
     "삭제된 컬렉션의 모든 문서도 함께 삭제됩니다."),
   (["collections", "deleteConfirm", "deleteButton"], "삭제"),
   (["collections", "deleteConfirm", "deleting"], "삭제 중..."),
   (["collections", "deleteConfirm", "deleteSelected"], "선택 항목 삭제"),
   (["collections", "popover", "basicInfo"], "기본 정보"),
   (["collections", "popover", "statistics"], "통계"),
   (["collections", "messages", "fetchError"], "컬렉션 조회 실패"),
   (["collections", "messages", "deleteSuccess"],
     "\x7b\x7bcount\x7d\x7d개의 컬렉션이 성공적으로 삭제되었습니다."),
   (["collections", "messages", "deleteFailed"],
     "\x7b\x7bcount\x7d\x7d개의 컬렉션 삭제에 실패했습니다."),
   (["collections", "modal", "createTitle"], "새 컬렉션 만들기"),
   (["collections", "modal", "nameLabel"], "컬렉션 이름"),
   (["collections", "modal", "namePlaceholder"], "컬렉션 이름을 입력하세요"),
   (["collections", "modal", "descriptionLabel"], "설명"),
   (["collections", "modal", "descriptionPlaceholder"],
     "컬렉션 설명을 입력하세요 (선택사항)"),
   (["collections", "modal", "creating"], "생성 중..."),
   (["collections", "modal", "createSuccess"], "컬렉션이 성공적으로 생성되었습니다"),
   (["collections", "modal", "createError"], "컬렉션 생성 실패"),
   (["documents", "title"], "문서 관리"),
   (["documents", "description"], "컬렉션에 문서를 업로드하고 관리하세요"),
   (["documents", "selectCollection"], "먼저 컬렉션을 선택해주세요"),
   (["documents", "uploadDocument"], "문서 업로드"),
   (["documents", "noDocuments"], "문서가 없습니다"),
   (["documents", "noDocumentsDescription"],
     "이 컬렉션에 첫 번째 문서를 업로드하세요."),
   (["documents", "uploadFirstDocument"], "첫 문서 업로드"),
   (["documents", "table", "fileName"], "파일명"),
   (["documents", "table", "uploadDate"], "업로드 날짜"),
   (["documents", "table", "chunks"], "청크"),
   (["documents", "table", "actions"], "작업"),
   (["documents", "deleteConfirm", "title"], "문서 삭제"),
   (["documents", "deleteConfirm", "description"],
     "\"\x7b\x7bfileName\x7d\x7d\"을(를) 삭제하시겠습니까? 이 작업은 복구할 수 없습니다."),
   (["documents", "deleteConfirm", "warningMessage"],
     "이 문서와 관련된 모든 청크도 함께 삭제됩니다."),
   (["documents", "messages", "uploadSuccess"], "문서가 성공적으로 업로드되었습니다"),
   (["documents", "messages", "uploadError"], "문서 업로드 실패"),
   (["documents", "messages", "deleteSuccess"], "문서가 성공적으로 삭제되었습니다"),
   (["documents", "messages", "deleteError"], "문서 삭제 실패"),
   (["documents", "messages", "fetchError"], "문서 조회 실패"),
   (["documents", "modal", "uploadTitle"], "문서 업로드"),
   (["documents", "modal", "selectFile"], "파일 선택"),
   (["documents", "modal", "supportedFormats"],
     "지원 형식: PDF, TXT, MD, DOCX, HTML"),
   (["documents", "modal", "uploading"], "업로드 중..."),
   (["documents", "modal", "processing"], "문서 처리 중..."),
   (["search", "title"], "문서 검색"),
   (["search", "description"], "시맨틱 또는 키워드 검색을 사용하여 문서를 검색하세요"),
   (["search", "selectCollection"], "컬렉션 선택"),
   (["search", "searchPlaceholder"], "검색어를 입력하세요..."),
   (["search", "searchButton"], "검색"),
   (["search", "searching"], "검색 중..."),
   (["search", "searchType"], "검색 유형"),
   (["search", "semanticSearch"], "시맨틱 검색"),
   (["search", "keywordSearch"], "키워드 검색"),
   (["search", "hybridSearch"], "하이브리드 검색"),
   (["search", "alphaValue"], "알파 값 (0-1)"),
   (["search", "noResults"], "검색 결과가 없습니다"),
   (["search", "results"], "검색 결과"),
   (["search", "relevanceScore"], "관련도: \x7b\x7bscore\x7d\x7d"),
   (["apiTester", "title"], "API 테스터"),
   (["apiTester", "description"], "인증을 사용하여 API 엔드포인트를 테스트하세요"),
   (["apiTester", "endpoint"], "엔드포인트"),
   (["apiTester", "method"], "메서드"),
   (["apiTester", "headers"], "헤더"),
   (["apiTester", "body"], "본문"),
   (["apiTester", "sendRequest"], "요청 보내기"),
   (["apiTester", "response"], "응답"),
   (["apiTester", "responseTime"], "응답 시간: \x7b\x7btime\x7d\x7dms"),
   (["apiTester", "status"], "상태"),
   (["auth", "signIn"], "로그인"),
   (["auth", "signUp"], "회원가입"),
   (["auth", "email"], "이메일"),
   (["auth", "password"], "비밀번호"),
   (["auth", "confirmPassword"], "비밀번호 확인"),
   (["auth", "forgotPassword"], "비밀번호를 잊으셨나요?"),
   (["auth", "alreadyHaveAccount"], "이미 계정이 있으신가요?"),
   (["auth", "dontHaveAccount"], "계정이 없으신가요?"),
   (["auth", "signInError"], "로그인 실패"),
   (["auth", "signUpError"], "회원가입 실패"),
   (["auth", "logoutSuccess"], "로그아웃되었습니다"),
   (["theme", "light"], "라이트"),
   (["theme", "dark"], "다크"),
   (["theme", "system"], "시스템"),
   (["language", "english"], "English"),
   (["language", "korean"], "한국어")]

/-- A leaf string exists at key path `path` in a flattened translation table. -/
def hasLeaf (t : List (List String × String)) (path : List String) : Bool :=
  t.any (fun e => e.1 == path)

/-! ## Helper lemmas about the ranking sort -/

theorem mem_insertLe {le : α → α → Bool} {a x : α} :
    ∀ {l : List α}, x ∈ insertLe le a l ↔ x = a ∨ x ∈ l := by
  intro l
  induction l with
  | nil => simp [insertLe]
  | cons b bs ih =>
    simp only [insertLe]
    split
    · simp
    · simp [ih, or_assoc, or_left_comm]

theorem mem_sortLe {le : α → α → Bool} {x : α} :
    ∀ {l : List α}, x ∈ sortLe le l ↔ x ∈ l := by
  intro l
  induction l with
  | nil => simp [sortLe]
  | cons a as ih => simp [sortLe, mem_insertLe, ih]

theorem insertLe_congr {le₁ le₂ : α → α → Bool} {a : α} :
    ∀ {l : List α}, (∀ b ∈ l, le₁ a b = le₂ a b) →
      insertLe le₁ a l = insertLe le₂ a l := by
  intro l
  induction l with
  | nil => simp [insertLe]
  | cons b bs ih =>
    intro h
    simp only [insertLe, h b (by simp)]
    split
    · rfl
    · rw [ih (fun c hc => h c (by simp [hc]))]

theorem sortLe_congr {le₁ le₂ : α → α → Bool} :
    ∀ {l : List α}, (∀ a ∈ l, ∀ b ∈ l, le₁ a b = le₂ a b) →
      sortLe le₁ l = sortLe le₂ l := by
  intro l
  induction l with
  | nil => simp [sortLe]
  | cons a as ih =>
    intro h
    have hs : sortLe le₁ as = sortLe le₂ as :=
      ih (fun x hx y hy => h x (by simp [hx]) y (by simp [hy]))
    simp only [sortLe, hs]
    exact insertLe_congr (fun b hb =>
      h a (by simp) b (by simp [mem_sortLe.mp hb]))

/-! ## Helper lemmas about the min-max normalization bounds -/

theorem maxScore_cons {s : ChunkRow → ℚ} {a : ChunkRow} {l : List ChunkRow}
    (h : l ≠ []) : maxScore s (a :: l) = max (s a) (maxScore s l) := by
  cases l with
  | nil => exact absurd rfl h
  | cons b bs => rfl

theorem minScore_cons {s : ChunkRow → ℚ} {a : ChunkRow} {l : List ChunkRow}
    (h : l ≠ []) : minScore s (a :: l) = min (s a) (minScore s l) := by
  cases l with
  | nil => exact absurd rfl h
  | cons b bs => rfl

theorem le_maxScore {s : ChunkRow → ℚ} {c : ChunkRow} :
    ∀ {l : List ChunkRow}, c ∈ l → s c ≤ maxScore s l := by
  intro l
  induction l with
  | nil => simp
  | cons a as ih =>
    intro hc
    cases as with
    | nil =>
      simp only [List.mem_singleton] at hc
      simp [hc, maxScore]
    | cons b bs =>
      rw [maxScore_cons (by simp)]
      rcases List.mem_cons.mp hc with h | h
      · exact h ▸ le_max_left _ _
      · exact le_trans (ih h) (le_max_right _ _)

theorem minScore_le {s : ChunkRow → ℚ} {c : ChunkRow} :
    ∀ {l : List ChunkRow}, c ∈ l → minScore s l ≤ s c := by
  intro l
  induction l with
  | nil => simp
  | cons a as ih =>
    intro hc
    cases as with
    | nil =>
      simp only [List.mem_singleton] at hc
      simp [hc, minScore]
    | cons b bs =>
      rw [minScore_cons (by simp)]
      rcases List.mem_cons.mp hc with h | h
      · exact h ▸ min_le_left _ _
      · exact le_trans (min_le_right _ _) (ih h)

theorem score_eq_of_max_eq_min {s : ChunkRow → ℚ} {l : List ChunkRow}
    (h : maxScore s l = minScore s l) {a b : ChunkRow}
    (ha : a ∈ l) (hb : b ∈ l) : s a = s b := by
  have h1 : s a ≤ s b := le_trans (le_trans (le_maxScore ha) h.le) (minScore_le hb)
  have h2 : s b ≤ s a := le_trans (le_trans (le_maxScore hb) h.le) (minScore_le ha)
  exact le_antisymm h1 h2

theorem maxScore_allEq {s : ChunkRow → ℚ} {v : ℚ} :
    ∀ {l : List ChunkRow}, l ≠ [] → (∀ a ∈ l, s a = v) → maxScore s l = v := by
  intro l
  induction l with
  | nil => simp
  | cons a as ih =>
    intro _ h
    cases as with
    | nil => simpa [maxScore] using h a (by simp)
    | cons b bs =>
      rw [maxScore_cons (by simp), h a (by simp),
        ih (by simp) (fun x hx => h x (by simp [hx]))]
      exact max_self v

theorem minScore_allEq {s : ChunkRow → ℚ} {v : ℚ} :
    ∀ {l : List ChunkRow}, l ≠ [] → (∀ a ∈ l, s a = v) → minScore s l = v := by
  intro l
  induction l with
  | nil => simp
  | cons a as ih =>
    intro _ h
    cases as with
    | nil => simpa [minScore] using h a (by simp)
    | cons b bs =>
      rw [minScore_cons (by simp), h a (by simp),
        ih (by simp) (fun x hx => h x (by simp [hx]))]
      exact min_self v

theorem max_eq_min_iff_allEq {s : ChunkRow → ℚ} {l : List ChunkRow} {c : ChunkRow}
    (hc : c ∈ l) :
    maxScore s l = minScore s l ↔ ∀ a ∈ l, ∀ b ∈ l, s a = s b := by
  constructor
  · intro h a ha b hb
    exact score_eq_of_max_eq_min h ha hb
  · intro h
    have hne : l ≠ [] := by rintro rfl; simp at hc
    rw [maxScore_allEq hne (fun a ha => h a ha c hc),
      minScore_allEq hne (fun a ha => h a ha c hc)]

theorem minScore_lt_maxScore {s : ChunkRow → ℚ} {l : List ChunkRow} {c : ChunkRow}
    (hc : c ∈ l) (hne : maxScore s l ≠ minScore s l) :
    minScore s l < maxScore s l := by
  have hle : minScore s l ≤ maxScore s l :=
    le_trans (minScore_le hc) (le_maxScore hc)
  exact lt_of_le_of_ne hle (Ne.symm hne)

theorem affine_lt_iff {x y mn d : ℚ} (hd : 0 < d) :
    (x - mn) / d < (y - mn) / d ↔ x < y := by
  rw [div_lt_div_iff₀ hd hd]
  constructor <;> intro h <;> nlinarith

theorem affine_eq_iff {x y mn d : ℚ} (hd : d ≠ 0) :
    (x - mn) / d = (y - mn) / d ↔ x = y := by
  rw [div_eq_div_iff hd hd]
  constructor
  · intro h
    have h2 : x - mn = y - mn := mul_right_cancel₀ hd h
    linarith
  · intro h
    rw [h]

/-- Ranking by the min-max normalized scores of a modality agrees with ranking
by its raw scores, for candidates drawn from the normalization pool. -/
theorem rankLe_normalize {s : ChunkRow → ℚ} {cands : List ChunkRow}
    {a b : ChunkRow} (ha : a ∈ cands) (hb : b ∈ cands) :
    rankLe (normalize s cands) a b = rankLe s a b := by
  by_cases hmm : maxScore s cands = minScore s cands
  · have hn : ∀ x, normalize s cands x = 1 := fun x => by simp [normalize, hmm]
    have hsab : s a = s b := score_eq_of_max_eq_min hmm ha hb
    simp [rankLe, hn, hsab]
  · have hpos : 0 < maxScore s cands - minScore s cands := by
      have := minScore_lt_maxScore ha hmm
      linarith
    have hn : ∀ x, normalize s cands x =
        (s x - minScore s cands) / (maxScore s cands - minScore s cands) :=
      fun x => by simp [normalize, hmm]
    have h1 : (normalize s cands b < normalize s cands a) ↔ (s b < s a) := by
      rw [hn a, hn b]
      exact affine_lt_iff hpos
    have h2 : (normalize s cands a = normalize s cands b) ↔ (s a = s b) := by
      rw [hn a, hn b]
      exact affine_eq_iff (ne_of_gt hpos)
    simp only [rankLe, decide_eq_decide.mpr h1, decide_eq_decide.mpr h2]

theorem fusedScore_one (sem kw : ChunkRow → ℚ) (cands : List ChunkRow)
    (c : ChunkRow) : fusedScore 1 sem kw cands c = normalize sem cands c := by
  unfold fusedScore
  ring

theorem fusedScore_zero (sem kw : ChunkRow → ℚ) (cands : List ChunkRow)
    (c : ChunkRow) : fusedScore 0 sem kw cands c = normalize kw cands c := by
  unfold fusedScore
  ring

/-- C1: for every candidate pool, scoring functions, metadata filter and limit,
a hybrid search with `alpha = 1` returns exactly the ordering of the semantic
mode, and with `alpha = 0` exactly the ordering of the keyword mode, over the
identical filtered candidate pool. -/
theorem hybrid_alpha_endpoints (pool : List ChunkRow) (sem kw : ChunkRow → ℚ)
    (filter : List (String × String)) (limit : Nat) :
    hybridSearch pool sem kw filter limit 1 = semanticSearch pool sem filter limit ∧
    hybridSearch pool sem kw filter limit 0 = keywordSearch pool kw filter limit := by
  constructor
  · simp only [hybridSearch, semanticSearch]
    congr 1
    apply sortLe_congr
    intro a ha b hb
    have h1 : rankLe (fusedScore 1 sem kw (fetchChunksForSearch pool filter)) a b
        = rankLe (normalize sem (fetchChunksForSearch pool filter)) a b := by
      simp only [rankLe, fusedScore_one]
    rw [h1]
    exact rankLe_normalize ha hb
  · simp only [hybridSearch, keywordSearch]
    congr 1
    apply sortLe_congr
    intro a ha b hb
    have h0 : rankLe (fusedScore 0 sem kw (fetchChunksForSearch pool filter)) a b
        = rankLe (normalize kw (fetchChunksForSearch pool filter)) a b := by
      simp only [rankLe, fusedScore_zero]
    rw [h0]
    exact rankLe_normalize ha hb

/-- C2: over a candidate pool containing `c`, min-max normalization gives
normalized score exactly 1 to a candidate with the maximum raw score, exactly 0
to a candidate with the minimum raw score when not all raw scores are equal,
and 1 to every candidate when all raw scores are equal; the fused score is
`alpha * normalizedSemantic + (1 - alpha) * normalizedKeyword`. -/
theorem normalization_bounds (s : ChunkRow → ℚ) (cands : List ChunkRow)
    (c : ChunkRow) (hc : c ∈ cands) :
    (s c = maxScore s cands → normalize s cands c = 1) ∧
    ((∀ a ∈ cands, ∀ b ∈ cands, s a = s b) → normalize s cands c = 1) ∧
    ((¬ ∀ a ∈ cands, ∀ b ∈ cands, s a = s b) → s c = minScore s cands →
      normalize s cands c = 0) ∧
    (∀ (alpha : ℚ) (sem kw : ChunkRow → ℚ),
      fusedScore alpha sem kw cands c =
        alpha * normalize sem cands c + (1 - alpha) * normalize kw cands c) := by
  refine ⟨?_, ?_, ?_, fun alpha sem kw => rfl⟩
  · intro hmax
    by_cases hmm : maxScore s cands = minScore s cands
    · simp [normalize, hmm]
    · have hpos : 0 < maxScore s cands - minScore s cands := by
        have := minScore_lt_maxScore hc hmm
        linarith
      simp only [normalize, if_neg hmm, hmax]
      exact div_self (ne_of_gt hpos)
  · intro hall
    have hmm : maxScore s cands = minScore s cands :=
      (max_eq_min_iff_allEq hc).mpr hall
    simp [normalize, hmm]
  · intro hall hmin
    have hmm : maxScore s cands ≠ minScore s cands :=
      fun h => hall ((max_eq_min_iff_allEq hc).mp h)
    simp [normalize, if_neg hmm, hmin]

/-- A two-chunk example pool used to instantiate the search-engine theorems. -/
def exChunkA : ChunkRow := ⟨10, 0, [], [], [("lang", "en")]⟩

/-- A second example chunk, in the same document, next ordinal. -/
def exChunkB : ChunkRow := ⟨10, 1, [], [], [("lang", "ko")]⟩

/-- Example score: the chunk's ordinal, so `exChunkB` scores highest. -/
def exScore : ChunkRow → ℚ := fun ch => (ch.ordinal : ℚ)

/-- Witness for C2 at a concrete pool: in the pool `[exChunkA, exChunkB]` with
score = ordinal, the maximum scorer normalizes to 1 and the minimum to 0. -/
theorem normalization_bounds_witness :
    normalize exScore [exChunkA, exChunkB] exChunkB = 1 ∧
    normalize exScore [exChunkA, exChunkB] exChunkA = 0 := by
  constructor
  · exact (normalization_bounds exScore [exChunkA, exChunkB] exChunkB
      (by simp)).1 (by decide)
  · exact (normalization_bounds exScore [exChunkA, exChunkB] exChunkA
      (by simp)).2.2.1 (by decide) (by decide)

theorem mem_cascade_collections {s : Store} {cid : Nat} {c : CollectionRow} :
    c ∈ (deleteCollectionCascade cid s).collections ↔
      c ∈ s.collections ∧ c.id ≠ cid := by
  simp [deleteCollectionCascade, List.mem_filter]

theorem mem_cascade_documents {s : Store} {cid : Nat} {d : DocumentRow} :
    d ∈ (deleteCollectionCascade cid s).documents ↔
      d ∈ s.documents ∧ d.collectionId ≠ cid := by
  simp [deleteCollectionCascade, List.mem_filter]

theorem mem_cascade_chunks {s : Store} {cid : Nat} {ch : ChunkRow} :
    ch ∈ (deleteCollectionCascade cid s).chunks ↔
      ch ∈ s.chunks ∧
        ¬ ∃ d ∈ s.documents, d.id = ch.documentId ∧ d.collectionId = cid := by
  simp [deleteCollectionCascade, List.mem_filter, rootsAt, List.any_eq_true,
    not_exists, not_and]

/-- C3: deleting a Collection removes exactly its own collection row, exactly
the Documents owned by it, and exactly the Chunks whose ownership chain
(Chunk → Document → Collection) roots at it; every other row is untouched. -/
theorem cascade_delete_exact (s : Store) (cid : Nat) :
    (∀ c, c ∈ (deleteCollectionCascade cid s).collections ↔
      c ∈ s.collections ∧ c.id ≠ cid) ∧
    (∀ d, d ∈ (deleteCollectionCascade cid s).documents ↔
      d ∈ s.documents ∧ d.collectionId ≠ cid) ∧
    (∀ ch, ch ∈ (deleteCollectionCascade cid s).chunks ↔
      ch ∈ s.chunks ∧
        ¬ ∃ d ∈ s.documents, d.id = ch.documentId ∧ d.collectionId = cid) :=
  ⟨fun _ => mem_cascade_collections, fun _ => mem_cascade_documents,
    fun _ => mem_cascade_chunks⟩

/-- C6: a chunk is an eligible candidate iff every key of the metadata filter
is present in its inherited metadata with exactly the filter's value (an absent
key is a non-match); every search result satisfies the filter; and removing the
non-matching chunks from the pool beforehand changes nothing — filtering
happens before scoring, so normalization bounds only see eligible candidates. -/
theorem filter_before_scoring (pool : List ChunkRow) (sem kw : ChunkRow → ℚ)
    (filter : List (String × String)) (limit : Nat) (alpha : ℚ) :
    (∀ ch, ch ∈ fetchChunksForSearch pool filter ↔
      ch ∈ pool ∧ ∀ kv ∈ filter, ch.metadata.lookup kv.1 = some kv.2) ∧
    (∀ ch ∈ hybridSearch pool sem kw filter limit alpha,
      matchesFilter filter ch = true) ∧
    hybridSearch pool sem kw filter limit alpha =
      hybridSearch (pool.filter (matchesFilter filter)) sem kw filter limit alpha := by
  have hfetch : fetchChunksForSearch (pool.filter (matchesFilter filter)) filter =
      fetchChunksForSearch pool filter := by
    simp only [fetchChunksForSearch, List.filter_filter]
    apply List.filter_congr
    intro ch _
    rw [Bool.and_self]
  refine ⟨fun ch => ?_, fun ch hch => ?_, ?_⟩
  · simp [fetchChunksForSearch, List.mem_filter, matchesFilter,
      List.all_eq_true, beq_iff_eq]
  · have h1 : ch ∈ sortLe
        (rankLe (fusedScore alpha sem kw (fetchChunksForSearch pool filter)))
        (fetchChunksForSearch pool filter) := List.mem_of_mem_take hch
    have h2 : ch ∈ fetchChunksForSearch pool filter := mem_sortLe.mp h1
    exact (List.mem_filter.mp h2).2
  · simp only [hybridSearch, hfetch]

/-! ## Helper lemmas about iterated cascade deletes -/

theorem foldl_cascade_collections {c : CollectionRow} :
    ∀ (ids : List Nat) (s : Store),
      c ∈ (ids.foldl (fun acc i => deleteCollectionCascade i acc) s).collections ↔
        c ∈ s.collections ∧ c.id ∉ ids := by
  intro ids
  induction ids with
  | nil => simp
  | cons i rest ih =>
    intro s
    rw [List.foldl_cons, ih]
    simp only [mem_cascade_collections, List.mem_cons]
    constructor
    · rintro ⟨⟨hc, hne⟩, hrest⟩
      exact ⟨hc, by simp [hne, hrest]⟩
    · rintro ⟨hc, hni⟩
      push_neg at hni
      exact ⟨⟨hc, hni.1⟩, hni.2⟩

theorem foldl_cascade_documents {d : DocumentRow} :
    ∀ (ids : List Nat) (s : Store),
      d ∈ (ids.foldl (fun acc i => deleteCollectionCascade i acc) s).documents ↔
        d ∈ s.documents ∧ d.collectionId ∉ ids := by
  intro ids
  induction ids with
  | nil => simp
  | cons i rest ih =>
    intro s
    rw [List.foldl_cons, ih]
    simp only [mem_cascade_documents, List.mem_cons]
    constructor
    · rintro ⟨⟨hd, hne⟩, hrest⟩
      exact ⟨hd, by simp [hne, hrest]⟩
    · rintro ⟨hd, hni⟩
      push_neg at hni
      exact ⟨⟨hd, hni.1⟩, hni.2⟩

theorem foldl_cascade_chunks {ch : ChunkRow} :
    ∀ (ids : List Nat) (s : Store),
      ch ∈ (ids.foldl (fun acc i => deleteCollectionCascade i acc) s).chunks ↔
        ch ∈ s.chunks ∧
          ¬ ∃ d ∈ s.documents, d.id = ch.documentId ∧ d.collectionId ∈ ids := by
  intro ids
  induction ids with
  | nil => simp
  | cons i rest ih =>
    intro s
    rw [List.foldl_cons, ih]
    simp only [mem_cascade_chunks, mem_cascade_documents, List.mem_cons]
    constructor
    · rintro ⟨⟨hch, hnoti⟩, hnotrest⟩
      refine ⟨hch, ?_⟩
      rintro ⟨d, hd, hid, hcid | hcid⟩
      · exact hnoti ⟨d, hd, hid, hcid⟩
      · refine hnotrest ⟨d, ⟨hd, fun hdi => hnoti ⟨d, hd, hid, hdi⟩⟩, hid, hcid⟩
    · rintro ⟨hch, hno⟩
      refine ⟨⟨hch, ?_⟩, ?_⟩
      · rintro ⟨d, hd, hid, hcid⟩
        exact hno ⟨d, hd, hid, Or.inl hcid⟩
      · rintro ⟨d, ⟨hd, _⟩, hid, hcid⟩
        exact hno ⟨d, hd, hid, Or.inr hcid⟩

/-- Example store for the bulk-delete instance: collections 1 and 2 belong to
owner 7, collection 3 does not exist; documents 10, 11 hang off them, document
12 off an unrelated collection, with one chunk under 10 and one under 12. -/
def exStore : Store :=
  ⟨[⟨1, 7, "alpha"⟩, ⟨2, 7, "beta"⟩],
   [⟨10, 1⟩, ⟨11, 2⟩, ⟨12, 5⟩],
   [⟨10, 0, [], [], []⟩, ⟨12, 0, [], [], []⟩]⟩

/-- C5: `deleteCollections` itemizes its input into deletedIds (present and
owned by the caller, removed with all descendants) and notFoundIds (absent or
foreign), invalid ids never aborting the valid deletions; at the concrete
store with two valid ids and one invalid id it returns
`deleted = [1, 2], notFound = [3]`. -/
theorem bulk_delete_itemized (ids : List Nat) (owner : Nat) (s : Store) :
    (∀ i, i ∈ (deleteCollections ids owner s).2.1 ↔
      i ∈ ids ∧ ∃ c ∈ s.collections, c.id = i ∧ c.owner = owner) ∧
    (∀ i, i ∈ (deleteCollections ids owner s).2.2 ↔
      i ∈ ids ∧ ¬ ∃ c ∈ s.collections, c.id = i ∧ c.owner = owner) ∧
    (∀ c, c ∈ (deleteCollections ids owner s).1.collections ↔
      c ∈ s.collections ∧ c.id ∉ (deleteCollections ids owner s).2.1) ∧
    (∀ d, d ∈ (deleteCollections ids owner s).1.documents ↔
      d ∈ s.documents ∧ d.collectionId ∉ (deleteCollections ids owner s).2.1) ∧
    (∀ ch, ch ∈ (deleteCollections ids owner s).1.chunks ↔
      ch ∈ s.chunks ∧ ¬ ∃ d ∈ s.documents, d.id = ch.documentId ∧
        d.collectionId ∈ (deleteCollections ids owner s).2.1) ∧
    (deleteCollections [1, 2, 3] 7 exStore).2 = ([1, 2], [3]) := by
  refine ⟨fun i => ?_, fun i => ?_, fun c => ?_, fun d => ?_, fun ch => ?_, ?_⟩
  · simp [deleteCollections, List.mem_filter, ownedPresent, List.any_eq_true]
  · simp [deleteCollections, List.mem_filter, ownedPresent, List.any_eq_true]
  · simp only [deleteCollections]
    exact foldl_cascade_collections _ s
  · simp only [deleteCollections]
    exact foldl_cascade_documents _ s
  · simp only [deleteCollections]
    exact foldl_cascade_chunks _ s
  · decide

/-- C4: the Ingestion Pipeline is atomic — on success the document row and all
its chunk rows become visible together; on any error the store is returned
unchanged; extraction failure signals `ExtractionError` and embedding failure
for any chunk signals `EmbeddingError`, both leaving the store untouched. -/
theorem ingest_atomic (extract : Except Unit (List Char))
    (embed : List Char → Except Unit (List ℚ)) (size overlap : Nat)
    (docId cid : Nat) (meta : List (String × String)) (s : Store) :
    ((ingestDocument extract embed size overlap docId cid meta s).2 = none →
      ∃ text embs, extract = Except.ok text ∧
        embedAll embed (windowChunks size overlap text) = Except.ok embs ∧
        (ingestDocument extract embed size overlap docId cid meta s).1.documents =
          ⟨docId, cid⟩ :: s.documents ∧
        (ingestDocument extract embed size overlap docId cid meta s).1.chunks =
          mkChunkRows docId meta 0 ((windowChunks size overlap text).zip embs)
            ++ s.chunks) ∧
    (∀ e, (ingestDocument extract embed size overlap docId cid meta s).2 = some e →
      (ingestDocument extract embed size overlap docId cid meta s).1 = s) ∧
    (extract = Except.error () →
      (ingestDocument extract embed size overlap docId cid meta s).2 =
        some IngestError.extractionError) ∧
    (∀ text, extract = Except.ok text →
      embedAll embed (windowChunks size overlap text) = Except.error () →
      (ingestDocument extract embed size overlap docId cid meta s).2 =
        some IngestError.embeddingError) := by
  cases extract with
  | error u =>
    refine ⟨fun h => ?_, fun e _ => rfl, fun _ => rfl, fun text htext _ => ?_⟩
    · simp [ingestDocument] at h
    · cases htext
  | ok text =>
    cases hemb : embedAll embed (windowChunks size overlap text) with
    | error u =>
      refine ⟨fun h => ?_, fun e _ => ?_, fun h => ?_, fun t ht h2 => ?_⟩
      · simp [ingestDocument, hemb] at h
      · simp [ingestDocument, hemb]
      · simp at h
      · injection ht with ht
        subst ht
        simp [ingestDocument, hemb]
    | ok embs =>
      refine ⟨fun _ => ⟨text, embs, rfl, hemb, ?_, ?_⟩, fun e he => ?_,
        fun h => ?_, fun t ht h2 => ?_⟩
      · simp [ingestDocument, hemb, insertDocumentWithChunks]
      · simp [ingestDocument, hemb, insertDocumentWithChunks]
      · simp [ingestDocument, hemb] at he
      · simp at h
      · injection ht with ht
        subst ht
        rw [hemb] at h2
        cases h2

/-- Witness for C4 at a concrete input: a failing extractor leaves the example
store unchanged and signals `ExtractionError`. -/
theorem ingest_atomic_witness :
    (ingestDocument (Except.error ()) (fun _ => Except.ok []) 500 50 20 1 []
      exStore).2 = some IngestError.extractionError ∧
    (ingestDocument (Except.error ()) (fun _ => Except.ok []) 500 50 20 1 []
      exStore).1 = exStore := by
  constructor
  · exact (ingest_atomic (Except.error ()) (fun _ => Except.ok []) 500 50 20 1 []
      exStore).2.2.1 rfl
  · exact (ingest_atomic (Except.error ()) (fun _ => Except.ok []) 500 50 20 1 []
      exStore).2.1 IngestError.extractionError rfl

theorem windowChunks_step {u : List Char} (hu : 500 < u.length) :
    windowChunks 500 50 u = u.take 500 :: windowChunks 500 50 (u.drop 450) := by
  rw [windowChunks]
  rw [if_neg (by omega)]

theorem windowChunks_base {u : List Char} (hu : u.length ≤ 500) :
    windowChunks 500 50 u = [u] := by
  rw [windowChunks]
  rw [if_pos (Or.inl hu)]

/-- C7: a 1200-character text windows with target 500 and overlap 50 into
exactly the 3 chunks `[0,500)`, `[450,950)`, `[900,1200)`; the ingestion
pipeline assigns them ordinals 0, 1, 2; and concatenating the chunks after
dropping each later chunk's 50-character overlap with its predecessor
reconstructs the source text with no loss. -/
theorem window_1200_500_50 (t : List Char) (h : t.length = 1200) :
    windowChunks 500 50 t = [t.take 500, (t.drop 450).take 500, t.drop 900] ∧
    (windowChunks 500 50 t).length = 3 ∧
    (∀ (docId : Nat) (meta : List (String × String)) (embs : List (List ℚ)),
      embs.length = 3 →
      (mkChunkRows docId meta 0 ((windowChunks 500 50 t).zip embs)).map
        ChunkRow.ordinal = [0, 1, 2]) ∧
    deOverlap 50 (windowChunks 500 50 t) = t := by
  have hw : windowChunks 500 50 t =
      [t.take 500, (t.drop 450).take 500, t.drop 900] := by
    rw [windowChunks_step (by omega)]
    rw [windowChunks_step (by rw [List.length_drop, h]; omega)]
    rw [List.drop_drop, windowChunks_base (by rw [List.length_drop, h]; omega)]
  refine ⟨hw, by rw [hw]; rfl, fun docId meta embs hlen => ?_, ?_⟩
  · rcases embs with _ | ⟨e1, _ | ⟨e2, _ | ⟨e3, rest⟩⟩⟩ <;> simp at hlen
    subst hlen
    rw [hw]
    simp [mkChunkRows]
  · rw [hw]
    simp only [deOverlap, List.map_cons, List.map_nil, List.flatten_cons,
      List.flatten_nil, List.append_nil, List.drop_take, List.drop_drop]
    norm_num
    rw [show (950 : Nat) = 500 + 450 by norm_num, List.drop_take_append_drop]
    exact List.take_append_drop 500 t

/-- Witness for C7 at a concrete 1200-character text. -/
theorem window_1200_500_50_witness :
    (List.replicate 1200 'a').length = 1200 ∧
    deOverlap 50 (windowChunks 500 50 (List.replicate 1200 'a')) =
      List.replicate 1200 'a' :=
  ⟨List.length_replicate 1200 'a',
    (window_1200_500_50 (List.replicate 1200 'a')
      (List.length_replicate 1200 'a')).2.2.2⟩

theorem n1Step_count (acc : List (CollectionRow × Nat × Nat) × Session)
    (c : CollectionRow) :
    (n1Step acc c).2.queriesIssued = acc.2.queriesIssued + 2 := by
  simp only [n1Step, runQuery]

theorem foldl_n1Step_count :
    ∀ (cols : List CollectionRow) (acc : List (CollectionRow × Nat × Nat) × Session),
      (cols.foldl n1Step acc).2.queriesIssued =
        acc.2.queriesIssued + 2 * cols.length := by
  intro cols
  induction cols with
  | nil => intro acc; simp
  | cons c cs ih =>
    intro acc
    rw [List.foldl_cons, ih, n1Step_count, List.length_cons]
    omega

/-- C8: `listCollectionsWithStats` sends exactly one round trip — the single
aggregated query — over the instrumented session, for every store and owner,
so the query count is independent of how many collections or documents the
owner has; its rows list exactly the caller's collections with correct
document and chunk counts; and under the same instrumentation the defective
per-collection pattern issues `1 + 2·n` queries for `n` owned collections —
the one-query-per-collection behaviour the contract rules out. -/
theorem stats_single_query (s : Store) (owner : Nat) :
    (listCollectionsWithStats s owner).2 = 1 ∧
    (∀ c dc cc, (c, dc, cc) ∈ (listCollectionsWithStats s owner).1 →
      c ∈ s.collections ∧ c.owner = owner ∧
      dc = (s.documents.filter (fun d => d.collectionId == c.id)).length ∧
      cc = (s.chunks.filter (rootsAt s c.id)).length) ∧
    (∀ c ∈ s.collections, c.owner = owner →
      (c, docCount s c.id, chunkCount s c.id) ∈ (listCollectionsWithStats s owner).1) ∧
    (listCollectionsWithStatsN1 s owner).2 =
      1 + 2 * (s.collections.filter (fun c => c.owner == owner)).length := by
  have hrows : (listCollectionsWithStats s owner).1 =
      (s.collections.filter (fun c => c.owner == owner)).map
        (fun c => (c, docCount s c.id, chunkCount s c.id)) := rfl
  refine ⟨rfl, fun c dc cc hmem => ?_, fun c hc howner => ?_, ?_⟩
  · rw [hrows] at hmem
    simp only [List.mem_map, List.mem_filter, beq_iff_eq] at hmem
    obtain ⟨c', ⟨hc', ho⟩, heq⟩ := hmem
    injection heq with h1 h2
    injection h2 with h2 h3
    subst h1
    subst h2
    subst h3
    exact ⟨hc', ho, rfl, rfl⟩
  · rw [hrows]
    simp only [List.mem_map, List.mem_filter]
    exact ⟨c, ⟨hc, by simp [howner]⟩, rfl⟩
  · show ((s.collections.filter (fun c => c.owner == owner)).foldl n1Step
      ([], { store := s, queriesIssued := 1 })).2.queriesIssued = _
    rw [foldl_n1Step_count]

/-- C9: `generateBreadcrumb` returns at most one item — exactly the home item
named "Main" for the root pathname, and otherwise either nothing or the first
navigation item whose href equals the pathname or prefixes it followed by "/";
hence no index of the returned list satisfies the separator guard `0 < index`. -/
theorem breadcrumb_single_item (p : List Char) :
    (generateBreadcrumb p).length ≤ 1 ∧
    (p = "/".toList → generateBreadcrumb p = [⟨"Main", "/".toList, true⟩]) ∧
    (p ≠ "/".toList → generateBreadcrumb p = [] ∨
      ∃ item, generateBreadcrumb p = [item] ∧ item ∈ navigationMain ∧
        navigationMain.find? (fun it => p == it.href ||
          (it.href ++ "/".toList).isPrefixOf p) = some item ∧
        (p = item.href ∨ (item.href ++ "/".toList).isPrefixOf p = true)) ∧
    (∀ idx, 0 < idx → ¬ idx < (generateBreadcrumb p).length) := by
  have hlen : (generateBreadcrumb p).length ≤ 1 := by
    unfold generateBreadcrumb
    split
    · simp
    · split <;> simp
  refine ⟨hlen, fun hp => ?_, fun hp => ?_, fun idx hidx hlt => ?_⟩
  · simp [generateBreadcrumb, hp]
  · unfold generateBreadcrumb
    rw [if_neg hp]
    cases hfind : navigationMain.find? (fun it => p == it.href ||
        (it.href ++ "/".toList).isPrefixOf p) with
    | none => exact Or.inl rfl
    | some item =>
      refine Or.inr ⟨item, rfl, List.mem_of_find?_eq_some hfind, rfl, ?_⟩
      have hpred := List.find?_some hfind
      simp only [Bool.or_eq_true, beq_iff_eq] at hpred
      rcases hpred with h | h
      · exact Or.inl h
      · exact Or.inr h
  · omega

/-- Witness for C9 at the root pathname: the breadcrumb is the single home
item named "Main". -/
theorem breadcrumb_single_item_witness :
    generateBreadcrumb ("/".toList) = [⟨"Main", "/".toList, true⟩] :=
  (breadcrumb_single_item ("/".toList)).2.1 rfl

/-- Both translation tables carry the same key paths in the same order. -/
theorem en_ko_same_keys : enTable.map Prod.fst = koTable.map Prod.fst := rfl

/-- C10: the English and Korean translation tables have the same nested key
structure — a leaf string exists at a key path in `en` iff one exists at the
same path in `ko`, so every UI string is available in both languages. -/
theorem translations_key_parity (path : List String) :
    hasLeaf enTable path = hasLeaf koTable path := by
  have h : ∀ t : List (List String × String),
      hasLeaf t path = (t.map Prod.fst).any (fun k => k == path) := by
    intro t
    induction t with
    | nil => rfl
    | cons a as ih =>
      simp only [hasLeaf, List.map_cons, List.any_cons] at ih ⊢
      rw [ih]
  rw [h enTable, h koTable, en_ko_same_keys]

end LangConnect
